import Mathlib

/-!
Verification of the vpilot-alert core against its specification.

The development shallowly embeds the three code sites the claims are about:

* `Plugin` — `src/AlertPlugin/Plugin.cs`: the vPilot plugin's periodic
  connection-status poll (`PeriodicCheck`), its fire-and-forget HTTP relay
  (`SendRequest`) and the three simulator event handlers.
* `AlarmSounds` — `AlarmSoundsModule.kt`: the native Android audio engine
  (`playSound`, `stopSound`, `isPlaying`) modelled as a state machine whose
  transitions also emit the primitive resource actions they perform.
* `Dispatch` — `src/vPilotAlert/index.js`: the push-notification handler
  `playAlarm`, including its module-level `baseURL` cache and its uncaught
  `fetch`.
* `Preview` — the preview `playSound` of `App.tsx` /
  `screens/AlarmSounds` with its 5-second `setTimeout` auto-stop, modelled as
  a discrete-event system so pending timers are explicit.

Every definition is translated from the source files; effectful calls
(HTTP, media, storage) are parameters or recorded actions.
-/

namespace VpilotAlert

/-! ## Plugin.cs: PeriodicCheck, SendRequest and the event handlers -/

namespace Plugin

/-- Result of one HTTP request as seen by the C# code: either the client
threw (network unreachable, timeout, ...) or a response with a status code
and a body string came back. -/
inductive HttpResult where
  | transportError (msg : String)
  | response (status : Nat) (body : String)
  deriving DecidableEq, Repr

/-- HttpResponseMessage.IsSuccessStatusCode: status in the 2xx range. -/
def isSuccessStatusCode (status : Nat) : Bool :=
  200 ≤ status && status < 300

/-- JsonConvert.DeserializeObject&lt;bool&gt; on the body: yields the boolean
for the JSON literals, throws (here: `none`) on anything else. -/
def deserializeBool (body : String) : Option Bool :=
  if body = "true" then some true
  else if body = "false" then some false
  else none

/-- Outcome of one `PeriodicCheck` tick: whether `RequestDisconnect` was
called on the broker, and the debug messages posted. -/
structure TickOutcome where
  disconnectRequested : Bool
  logs : List String
  deriving DecidableEq, Repr

/-- PeriodicCheck (Plugin.cs lines 36-63): GET `{base}/connection-status`;
on a 2xx response deserialize the body as a bool `shouldDisconnect` and call
`RequestDisconnect` when it is `false`; on a non-success status log; any
exception (transport error, unparseable body) is caught and logged. -/
def periodicCheck (r : HttpResult) : TickOutcome :=
  match r with
  | .transportError msg =>
      { disconnectRequested := false
        logs := ["Error during periodic check: " ++ msg] }
  | .response status body =>
      if isSuccessStatusCode status then
        match deserializeBool body with
        | some shouldDisconnect =>
            if !shouldDisconnect then
              { disconnectRequested := true
                logs := ["Disconnect condition met. Disconnecting from vPilot..."] }
            else
              { disconnectRequested := false, logs := [] }
        | none =>
            { disconnectRequested := false
              logs := ["Error during periodic check: deserialization failed"] }
      else
        { disconnectRequested := false
          logs := ["Failed to check disconnect condition. Status code: " ++ toString status] }

/-- SendRequest's try-block (Plugin.cs lines 67-78): serialize, POST, and on
a non-success status post two debug messages (the status-code line and the
error-content line). `Except.error` marks an exception reaching the catch. -/
def trySendBody (r : HttpResult) : Except String (List String) :=
  match r with
  | .transportError msg => .error msg
  | .response status body =>
      .ok (if isSuccessStatusCode status then []
           else ["Failed to send message. Status code: " ++ toString status,
                 "Error: " ++ body])

/-- SendRequest (Plugin.cs lines 65-83): the whole body is wrapped in
try/catch, so the handler always returns its log lines and never rethrows
into the caller (the simulator event handler). -/
def sendRequest (r : HttpResult) : List String :=
  match trySendBody r with
  | .ok logs => logs
  | .error msg => ["An error occurred sending request: " ++ msg]

/-- JSON values as produced by JsonConvert.SerializeObject on the anonymous
payload objects (field order as written in the source). -/
inductive Json where
  | str (s : String)
  | num (n : Int)
  | arr (elems : List Json)
  | obj (fields : List (String × Json))

/-- The three simulator event kinds the plugin subscribes to. -/
inductive AlertEvent where
  | privateMessage (sender message : String)
  | radioMessage (frequencies : List Int) (sender message : String)
  | selcalAlert (frequencies : List Int) (sender : String)
  deriving DecidableEq, Repr

/-- An outgoing POST: full URL (SendRequest prepends `baseUrl`) and body. -/
structure PostRequest where
  url : String
  body : Json

/-- OnPrivateMessageReceived (Plugin.cs line 85-88). -/
def onPrivateMessageReceived (baseUrl sender message : String) : PostRequest :=
  { url := baseUrl ++ "/private-message"
    body := .obj [("from", .str sender), ("message", .str message)] }

/-- OnRadioMessageReceived (Plugin.cs line 90-93). -/
def onRadioMessageReceived (baseUrl : String) (frequencies : List Int)
    (sender message : String) : PostRequest :=
  { url := baseUrl ++ "/radio-message"
    body := .obj [("frequencies", .arr (frequencies.map Json.num)),
                  ("from", .str sender), ("message", .str message)] }

/-- OnSelCalReceived (Plugin.cs line 95-98). -/
def onSelCalReceived (baseUrl : String) (frequencies : List Int)
    (sender : String) : PostRequest :=
  { url := baseUrl ++ "/selcal"
    body := .obj [("frequencies", .arr (frequencies.map Json.num)),
                  ("from", .str sender)] }

/-- Dispatch of an event to the handler the plugin registered for its kind. -/
def relayRequest (baseUrl : String) : AlertEvent → PostRequest
  | .privateMessage sender message => onPrivateMessageReceived baseUrl sender message
  | .radioMessage frequencies sender message =>
      onRadioMessageReceived baseUrl frequencies sender message
  | .selcalAlert frequencies sender => onSelCalReceived baseUrl frequencies sender

/-- Modelled from the spec's external-interface section: PrivateMessage goes
to `{base}/private-message` with body `{from, message}`, RadioMessage to
`{base}/radio-message` with body `{frequencies: [number], from, message}`,
SelcalAlert to `{base}/selcal` with body `{frequencies: [number], from}`. -/
def specRelayRequest (baseUrl : String) : AlertEvent → PostRequest
  | .privateMessage sender message =>
      { url := baseUrl ++ "/private-message"
        body := .obj [("from", .str sender), ("message", .str message)] }
  | .radioMessage frequencies sender message =>
      { url := baseUrl ++ "/radio-message"
        body := .obj [("frequencies", .arr (frequencies.map Json.num)),
                      ("from", .str sender), ("message", .str message)] }
  | .selcalAlert frequencies sender =>
      { url := baseUrl ++ "/selcal"
        body := .obj [("frequencies", .arr (frequencies.map Json.num)),
                      ("from", .str sender)] }

end Plugin

/-! ## AlarmSoundsModule.kt: playSound, stopSound, isPlaying

The module holds one field `mediaPlayer : MediaPlayer?`. We model a
MediaPlayer by an identifier (so resource actions can be traced) and its
`isPlaying` flag. Each operation is split into the state it leaves behind
and the list of primitive resource actions it performs, in order. -/

namespace AlarmSounds

/-- The `mediaPlayer` field's referent: an id naming the underlying
MediaPlayer object and its `isPlaying` flag. -/
structure Player where
  id : Nat
  playing : Bool
  deriving DecidableEq, Repr

/-- The module's state: the `mediaPlayer` field plus a counter supplying
fresh ids for `MediaPlayer()` constructions. -/
structure ModuleState where
  mediaPlayer : Option Player
  nextId : Nat
  deriving DecidableEq, Repr

/-- Field state at module construction: `private var mediaPlayer = null`. -/
def initState : ModuleState := { mediaPlayer := none, nextId := 0 }

/-- Primitive actions on MediaPlayer objects, in the order the Kotlin code
performs them: `stop()`, `release()`, `MediaPlayer()` construction plus
`setDataSource`/`prepare`, and `start()`. -/
inductive Act where
  | stop (id : Nat)
  | release (id : Nat)
  | create (id : Nat)
  | start (id : Nat)
  deriving DecidableEq, Repr

/-- Actions of stopSound (AlarmSoundsModule.kt lines 76-85): only a handle
whose `isPlaying` is true is stopped and released; any other handle is
merely dropped. -/
def stopSoundActs (s : ModuleState) : List Act :=
  match s.mediaPlayer with
  | some p => if p.playing then [.stop p.id, .release p.id] else []
  | none => []

/-- State after stopSound: the field is unconditionally set to null. -/
def stopSoundState (s : ModuleState) : ModuleState :=
  { s with mediaPlayer := none }

/-- Actions of playSound (AlarmSoundsModule.kt lines 64-74): first
`stopSound()`, then a new MediaPlayer is constructed; if the uri can be
opened (`setDataSource`/`prepare` succeed, tracked by `openable`) it is
started, otherwise the exception aborts the `apply` block after the
construction. -/
def playSoundActs (openable : Bool) (s : ModuleState) : List Act :=
  stopSoundActs s ++
    (if openable then [.create s.nextId, .start s.nextId] else [.create s.nextId])

/-- State after playSound: when the uri opens, the field is assigned the
new looping, started player; when opening throws, the assignment on line 67
never happens and the field keeps the null that `stopSound()` left. -/
def playSoundState (openable : Bool) (s : ModuleState) : ModuleState :=
  let s1 := stopSoundState s
  if openable then
    { s1 with mediaPlayer := some { id := s1.nextId, playing := true }
              nextId := s1.nextId + 1 }
  else
    { s1 with nextId := s1.nextId + 1 }

/-- isPlaying (AlarmSoundsModule.kt lines 87-93): the handle's `isPlaying`
when one exists, false otherwise. -/
def isPlaying (s : ModuleState) : Bool :=
  match s.mediaPlayer with
  | some p => p.playing
  | none => false

/-- Calls reachable through the module's React interface. -/
inductive Op where
  | play (openable : Bool)
  | stop
  deriving DecidableEq, Repr

/-- State transition of one call. -/
def step (s : ModuleState) : Op → ModuleState
  | .play o => playSoundState o s
  | .stop => stopSoundState s

/-- Actions one call performs. -/
def stepActs (s : ModuleState) : Op → List Act
  | .play o => playSoundActs o s
  | .stop => stopSoundActs s

/-- Run a sequence of calls, threading the state and accumulating the
global action trace. -/
def runFrom (s : ModuleState) (tr : List Act) : List Op → ModuleState × List Act
  | [] => (s, tr)
  | op :: rest => runFrom (step s op) (tr ++ stepActs s op) rest

/-- Run a call sequence from the freshly constructed module. -/
def runOps (ops : List Op) : ModuleState × List Act :=
  runFrom initState [] ops

/-- Effect of one action on the set of audio resources currently held: a
resource is held from its successful `start()` until its `release()`. -/
def heldStep (l : List Nat) : Act → List Nat
  | .start i => i :: l
  | .release i => l.erase i
  | _ => l

/-- Resources held after a trace. -/
def held (tr : List Act) : List Nat := tr.foldl heldStep []

/-- boundedHeldFrom l tr: along every instant of tr, starting from held set
l, at most one audio resource is held. -/
def boundedHeldFrom (l : List Nat) : List Act → Bool
  | [] => true
  | a :: rest => decide ((heldStep l a).length ≤ 1) && boundedHeldFrom (heldStep l a) rest

/-- The held set a state accounts for: exactly its playing handle. -/
def curHeld (s : ModuleState) : List Nat :=
  match s.mediaPlayer with
  | some p => if p.playing then [p.id] else []
  | none => []

theorem held_append (tr acts : List Act) :
    held (tr ++ acts) = acts.foldl heldStep (held tr) := by
  simp [held, List.foldl_append]

theorem boundedHeldFrom_append (l : List Act) (acts : List Act) (h : List Nat) :
    boundedHeldFrom h (l ++ acts) =
      (boundedHeldFrom h l && boundedHeldFrom (l.foldl heldStep h) acts) := by
  induction l generalizing h with
  | nil => simp [boundedHeldFrom]
  | cons a rest ih =>
      simp [boundedHeldFrom, ih, Bool.and_assoc]

/-- The coupling invariant between a module state and the trace that
produced it. -/
def Inv (s : ModuleState) (tr : List Act) : Prop :=
  held tr = curHeld s ∧
  (∀ p, s.mediaPlayer = some p → p.playing = true) ∧
  boundedHeldFrom [] tr = true

theorem inv_init : Inv initState [] := by
  refine ⟨rfl, ?_, rfl⟩
  intro p hp
  simp [initState] at hp

theorem inv_step (s : ModuleState) (tr : List Act) (op : Op) (h : Inv s tr) :
    Inv (step s op) (tr ++ stepActs s op) := by
  obtain ⟨hheld, hplay, hbound⟩ := h
  have hcur : held tr = curHeld s := hheld
  cases op with
  | stop =>
      cases hmp : s.mediaPlayer with
      | none =>
          refine ⟨?_, ?_, ?_⟩
          · simp only [step, stepActs, stopSoundActs, hmp, stopSoundState]
            rw [List.append_nil, hcur]
            simp [curHeld, hmp]
          · intro p hp
            simp [step, stopSoundState] at hp
          · simp [stepActs, stopSoundActs, hmp, hbound]
      | some p =>
          have hp : p.playing = true := hplay p hmp
          have hcur' : held tr = [p.id] := by
            rw [hcur]; simp [curHeld, hmp, hp]
          refine ⟨?_, ?_, ?_⟩
          · simp [step, stepActs, stopSoundActs, hmp, hp, stopSoundState,
              held_append, hcur', heldStep, curHeld]
          · intro q hq
            simp [step, stopSoundState] at hq
          · rw [stepActs, boundedHeldFrom_append]
            simp only [held] at hcur'
            simp [hbound, stopSoundActs, hmp, hp, hcur', boundedHeldFrom, heldStep]
  | play o =>
      have hstopActs : (stopSoundActs s).foldl heldStep (held tr) = [] := by
        cases hmp : s.mediaPlayer with
        | none =>
            simp [stopSoundActs, hmp]
            rw [hcur]; simp [curHeld, hmp]
        | some p =>
            have hp : p.playing = true := hplay p hmp
            have hcur' : held tr = [p.id] := by
              rw [hcur]; simp [curHeld, hmp, hp]
            simp [stopSoundActs, hmp, hp, hcur', heldStep]
      refine ⟨?_, ?_, ?_⟩
      · rw [step, stepActs, held_append]
        rw [playSoundActs, List.foldl_append, hstopActs]
        cases o with
        | true => simp [heldStep, playSoundState, stopSoundState, curHeld]
        | false => simp [heldStep, playSoundState, stopSoundState, curHeld]
      · intro q hq
        cases o with
        | true =>
            simp [step, playSoundState, stopSoundState] at hq
            simp [← hq]
        | false =>
            simp [step, playSoundState, stopSoundState] at hq
      · rw [stepActs, playSoundActs, boundedHeldFrom_append, boundedHeldFrom_append]
        have hb1 : boundedHeldFrom (held tr) (stopSoundActs s) = true := by
          cases hmp : s.mediaPlayer with
          | none => simp [stopSoundActs, hmp, boundedHeldFrom]
          | some p =>
              have hp : p.playing = true := hplay p hmp
              have hcur' : held tr = [p.id] := by
                rw [hcur]; simp [curHeld, hmp, hp]
              simp [stopSoundActs, hmp, hp, boundedHeldFrom, heldStep, hcur']
        have hb2 : boundedHeldFrom ((stopSoundActs s).foldl heldStep (held tr))
            (if o then [Act.create s.nextId, Act.start s.nextId]
             else [Act.create s.nextId]) = true := by
          rw [hstopActs]
          cases o with
          | true => simp [boundedHeldFrom, heldStep]
          | false => simp [boundedHeldFrom, heldStep]
        simp only [held] at hb1 hb2
        simp [hbound, hb1, hb2]

theorem inv_runFrom (ops : List Op) :
    ∀ s tr, Inv s tr → Inv (runFrom s tr ops).1 (runFrom s tr ops).2 := by
  induction ops with
  | nil => intro s tr h; simpa [runFrom] using h
  | cons op rest ih =>
      intro s tr h
      simpa [runFrom] using ih _ _ (inv_step s tr op h)

theorem inv_runOps (ops : List Op) : Inv (runOps ops).1 (runOps ops).2 :=
  inv_runFrom ops initState [] inv_init

end AlarmSounds

end VpilotAlert

namespace VpilotAlert

/-! ## Theorems about Plugin.cs -/

/-- C1: a SafetyPoll tick issues a simulator disconnect exactly when the
GET succeeded (2xx) and its body deserialized to the boolean `false`; on a
body of `true`, a transport error, or a non-success status no disconnect is
issued on that tick. -/
theorem periodicCheck_disconnect_iff (r : Plugin.HttpResult) :
    (Plugin.periodicCheck r).disconnectRequested = true ↔
      ∃ status body, r = .response status body ∧
        Plugin.isSuccessStatusCode status = true ∧
        Plugin.deserializeBool body = some false := by
  constructor
  · intro h
    cases r with
    | transportError msg => simp [Plugin.periodicCheck] at h
    | response status body =>
        refine ⟨status, body, rfl, ?_, ?_⟩ <;>
        · simp only [Plugin.periodicCheck] at h
          by_cases hs : Plugin.isSuccessStatusCode status = true
          · simp only [hs, if_true] at h
            cases hb : Plugin.deserializeBool body with
            | none => rw [hb] at h; simp at h
            | some b =>
                rw [hb] at h
                cases b with
                | false => simp_all
                | true => simp at h
          · simp only [Bool.not_eq_true] at hs
            rw [hs] at h
            simp at h
  · rintro ⟨status, body, rfl, hs, hb⟩
    simp [Plugin.periodicCheck, hs, hb]

/-- C9: each of the three simulator event kinds is serialized and POSTed to
the variant-specific endpoint with the body the spec lists: PrivateMessage
to base/private-message with from and message, RadioMessage to
base/radio-message with frequencies, from and message, and SelcalAlert to
base/selcal with frequencies and from. -/
theorem relayRequest_eq_spec (baseUrl : String) (e : Plugin.AlertEvent) :
    Plugin.relayRequest baseUrl e = Plugin.specRelayRequest baseUrl e := by
  cases e <;> rfl

/-- C6 counterexample: on an HTTP 500 response `SendRequest` posts two debug
messages, not exactly one. -/
theorem sendRequest_500_not_one_log :
    (Plugin.sendRequest (.response 500 "boom")).length ≠ 1 := by
  decide

/-- C6 amended: on a non-success HTTP response, SendRequest's catch-all
keeps any exception from escaping to the simulator event handler (the try
body returns its logs normally) and exactly two log lines are emitted: the
status-code line and the error-content line. -/
theorem sendRequest_nonSuccess_two_logs (status : Nat) (body : String)
    (h : Plugin.isSuccessStatusCode status = false) :
    Plugin.trySendBody (.response status body) =
      .ok ["Failed to send message. Status code: " ++ toString status,
           "Error: " ++ body] ∧
    (Plugin.sendRequest (.response status body)).length = 2 := by
  constructor
  · simp [Plugin.trySendBody, h]
  · simp [Plugin.sendRequest, Plugin.trySendBody, h]

/-- Witness for C6 amended at status 500. -/
theorem sendRequest_nonSuccess_two_logs_witness :
    Plugin.isSuccessStatusCode 500 = false ∧
    (Plugin.sendRequest (.response 500 "boom")).length = 2 :=
  ⟨by decide, (sendRequest_nonSuccess_two_logs 500 "boom" (by decide)).2⟩

end VpilotAlert

namespace VpilotAlert

/-! ## Theorems about AlarmSoundsModule.kt -/

/-- C3: when the native playSound is called while a handle exists (every
existing handle of a reachable module state is in the Playing state), the
old handle is stopped and released synchronously before the new
MediaPlayer is created, along the whole extended trace at most one audio
resource is held at any instant, and any handle of the resulting state is
the newly created player. -/
theorem playSound_exclusive (ops : List AlarmSounds.Op) (o : Bool)
    (p : AlarmSounds.Player)
    (hp : (AlarmSounds.runOps ops).1.mediaPlayer = some p) :
    AlarmSounds.playSoundActs o (AlarmSounds.runOps ops).1 =
      AlarmSounds.Act.stop p.id :: AlarmSounds.Act.release p.id ::
      AlarmSounds.Act.create (AlarmSounds.runOps ops).1.nextId ::
      (if o then [AlarmSounds.Act.start (AlarmSounds.runOps ops).1.nextId] else []) ∧
    AlarmSounds.boundedHeldFrom []
      ((AlarmSounds.runOps ops).2 ++
        AlarmSounds.playSoundActs o (AlarmSounds.runOps ops).1) = true ∧
    (∀ q, (AlarmSounds.playSoundState o (AlarmSounds.runOps ops).1).mediaPlayer = some q →
      q.id = (AlarmSounds.runOps ops).1.nextId ∧ q.playing = true) := by
  obtain ⟨hheld, hplay, hbound⟩ := AlarmSounds.inv_runOps ops
  have hpp : p.playing = true := hplay p hp
  have hcur : AlarmSounds.held (AlarmSounds.runOps ops).2 = [p.id] := by
    rw [hheld]; simp [AlarmSounds.curHeld, hp, hpp]
  refine ⟨?_, ?_, ?_⟩
  · rw [AlarmSounds.playSoundActs]
    simp [AlarmSounds.stopSoundActs, hp, hpp]
    cases o <;> simp
  · rw [AlarmSounds.boundedHeldFrom_append]
    have htr : AlarmSounds.boundedHeldFrom
        ((AlarmSounds.runOps ops).2.foldl AlarmSounds.heldStep [])
        (AlarmSounds.playSoundActs o (AlarmSounds.runOps ops).1) = true := by
      have : (AlarmSounds.runOps ops).2.foldl AlarmSounds.heldStep [] = [p.id] := hcur
      rw [this, AlarmSounds.playSoundActs]
      simp only [AlarmSounds.stopSoundActs, hp, hpp, if_true]
      cases o <;>
        simp [AlarmSounds.boundedHeldFrom, AlarmSounds.heldStep]
    rw [htr, hbound]
    rfl
  · intro q hq
    cases o with
    | true =>
        simp [AlarmSounds.playSoundState, AlarmSounds.stopSoundState] at hq
        simp [← hq]
    | false =>
        simp [AlarmSounds.playSoundState, AlarmSounds.stopSoundState] at hq

/-- Witness for C3: after one successful playSound, a second call stops and
releases the first player before creating and starting the second. -/
theorem playSound_exclusive_witness :
    (AlarmSounds.runOps [.play true]).1.mediaPlayer = some ⟨0, true⟩ ∧
    AlarmSounds.playSoundActs true (AlarmSounds.runOps [.play true]).1 =
      AlarmSounds.Act.stop 0 :: AlarmSounds.Act.release 0 ::
      AlarmSounds.Act.create (AlarmSounds.runOps [.play true]).1.nextId ::
      (if true then [AlarmSounds.Act.start (AlarmSounds.runOps [.play true]).1.nextId]
       else []) :=
  ⟨by decide, (playSound_exclusive [.play true] true ⟨0, true⟩ (by decide)).1⟩

/-- C7: playSound on a resource that cannot be opened leaves the module
with no handle and isPlaying false, for every prior state: the assignment
to `mediaPlayer` is skipped by the exception and the field keeps the null
written by the preceding stopSound. -/
theorem playSound_fail_closed (s : AlarmSounds.ModuleState) :
    (AlarmSounds.playSoundState false s).mediaPlayer = none ∧
    AlarmSounds.isPlaying (AlarmSounds.playSoundState false s) = false := by
  constructor <;>
    simp [AlarmSounds.playSoundState, AlarmSounds.stopSoundState, AlarmSounds.isPlaying]

/-- C10: after stopSound the handle field is always null and isPlaying is
false, but a release action is performed exactly when the prior handle
existed and was playing: a non-playing handle is dropped without release. -/
theorem stopSound_resets (s : AlarmSounds.ModuleState) :
    (AlarmSounds.stopSoundState s).mediaPlayer = none ∧
    AlarmSounds.isPlaying (AlarmSounds.stopSoundState s) = false ∧
    ((∃ i, AlarmSounds.Act.release i ∈ AlarmSounds.stopSoundActs s) ↔
      ∃ p, s.mediaPlayer = some p ∧ p.playing = true) := by
  refine ⟨rfl, rfl, ?_⟩
  cases hmp : s.mediaPlayer with
  | none => simp [AlarmSounds.stopSoundActs, hmp]
  | some p =>
      cases hpp : p.playing with
      | true => simp [AlarmSounds.stopSoundActs, hmp, hpp]
      | false => simp [AlarmSounds.stopSoundActs, hmp, hpp]

end VpilotAlert

namespace VpilotAlert

/-! ## index.js: the push-notification handler playAlarm

The handler lives next to a module-level `let baseURL = null`. Storage
reads, the POST to `{base}/alarm` and the native playSound call are
recorded as effects; a rejected `await` (the code has no try/catch) is an
`Except.error` result while the module-level assignment it already made
persists. -/

namespace Dispatch

/-- The AsyncStorage keys the handler consults. -/
structure Storage where
  baseURL : Option String
  selectedSound : Option String
  deriving DecidableEq, Repr

/-- Process state around one invocation: the module-level `baseURL` cache,
the persistent storage, and the native audio module's state. -/
structure AppState where
  cache : Option String
  storage : Storage
  engine : AlarmSounds.ModuleState
  deriving DecidableEq, Repr

/-- Per-delivery environment: the `data.triggerAlarm` string of the push
payload, whether the fetch of `{base}/alarm` resolves, and whether the
selected sound uri can be opened by the native player. -/
structure Env where
  triggerAlarm : String
  fetchOk : Bool
  openable : Bool
  deriving DecidableEq, Repr

/-- Observable effects of one invocation: AsyncStorage keys read in order,
uris passed to the native playSound, and POST attempts to `/alarm`. -/
structure Effects where
  reads : List String
  playCalls : List String
  posts : Nat
  deriving DecidableEq, Repr

/-- Result of one invocation: whether the handler's promise resolved or
rejected, the state left behind, and the effects performed. -/
structure Outcome where
  result : Except String Unit
  state : AppState
  effects : Effects

/-- The guard on index.js line 8:
`remoteMessage.data.triggerAlarm === 'true' && !AlarmSounds.isPlaying()`. -/
def triggerGuard (env : Env) (st : AppState) : Bool :=
  env.triggerAlarm = "true" && !(AlarmSounds.isPlaying st.engine)

/-- playAlarm (index.js lines 7-19): under the guard, read `baseURL` from
storage only when the module-level cache is still null; `await fetch` the
POST with no try/catch, so a rejection escapes the handler after the cache
assignment already happened; on success read `selectedSound` and, when
present, call the native playSound. -/
def playAlarm (env : Env) (st : AppState) : Outcome :=
  if triggerGuard env st then
    let readsBase : List String := if st.cache.isNone then ["baseURL"] else []
    let cache1 := if st.cache.isNone then st.storage.baseURL else st.cache
    let st1 : AppState := { st with cache := cache1 }
    if env.fetchOk then
      match st1.storage.selectedSound with
      | some uri =>
          { result := .ok ()
            state := { st1 with
              engine := AlarmSounds.playSoundState env.openable st1.engine }
            effects := { reads := readsBase ++ ["selectedSound"]
                         playCalls := [uri], posts := 1 } }
      | none =>
          { result := .ok ()
            state := st1
            effects := { reads := readsBase ++ ["selectedSound"]
                         playCalls := [], posts := 1 } }
    else
      { result := .error "fetch rejected"
        state := st1
        effects := { reads := readsBase, playCalls := [], posts := 1 } }
  else
    { result := .ok (), state := st, effects := { reads := [], playCalls := [], posts := 0 } }

/-- Run a sequence of push deliveries, counting native playSound calls. -/
def processDeliveries : List Env → AppState → AppState × Nat
  | [], st => (st, 0)
  | env :: rest, st =>
      let o := playAlarm env st
      let r := processDeliveries rest o.state
      (r.1, o.effects.playCalls.length + r.2)

end Dispatch

end VpilotAlert

namespace VpilotAlert

/-! ## Theorems about index.js -/

theorem playAlarm_noop_when_playing (env : Dispatch.Env) (st : Dispatch.AppState)
    (h : AlarmSounds.isPlaying st.engine = true) :
    Dispatch.playAlarm env st =
      { result := .ok (), state := st, effects := { reads := [], playCalls := [], posts := 0 } } := by
  have hg : Dispatch.triggerGuard env st = false := by
    simp [Dispatch.triggerGuard, h]
  simp [Dispatch.playAlarm, hg]

theorem processDeliveries_playing (envs : List Dispatch.Env) (st : Dispatch.AppState)
    (h : AlarmSounds.isPlaying st.engine = true) :
    Dispatch.processDeliveries envs st = (st, 0) := by
  induction envs with
  | nil => rfl
  | cons env rest ih =>
      simp [Dispatch.processDeliveries, playAlarm_noop_when_playing env st h, ih]

theorem isPlaying_after_playSound (e : AlarmSounds.ModuleState) :
    AlarmSounds.isPlaying (AlarmSounds.playSoundState true e) = true := by
  simp [AlarmSounds.playSoundState, AlarmSounds.stopSoundState, AlarmSounds.isPlaying]

/-- C2: across one or more push deliveries whose payload carries
triggerAlarm true, with the engine initially idle and no stop in between,
the native playSound is invoked exactly once; and any delivery arriving
while the engine reports isPlaying is a complete no-op. -/
theorem playAlarm_exactly_once (env : Dispatch.Env) (rest : List Dispatch.Env)
    (st : Dispatch.AppState) (uri : String)
    (hall : ∀ e ∈ env :: rest, e.triggerAlarm = "true" ∧ e.fetchOk = true ∧ e.openable = true)
    (hsound : st.storage.selectedSound = some uri)
    (hidle : AlarmSounds.isPlaying st.engine = false) :
    (Dispatch.processDeliveries (env :: rest) st).2 = 1 ∧
    (∀ (e : Dispatch.Env) (s : Dispatch.AppState), AlarmSounds.isPlaying s.engine = true →
      Dispatch.playAlarm e s =
        { result := .ok (), state := s,
          effects := { reads := [], playCalls := [], posts := 0 } }) := by
  obtain ⟨htrig, hfetch, hopen⟩ := hall env (List.mem_cons_self env rest)
  have hg : Dispatch.triggerGuard env st = true := by
    simp [Dispatch.triggerGuard, htrig, hidle]
  have hcalls : (Dispatch.playAlarm env st).effects.playCalls = [uri] := by
    simp [Dispatch.playAlarm, hg, hfetch, hsound]
  have hengine : (Dispatch.playAlarm env st).state.engine =
      AlarmSounds.playSoundState true st.engine := by
    simp [Dispatch.playAlarm, hg, hfetch, hsound, hopen]
  refine ⟨?_, fun e s h => playAlarm_noop_when_playing e s h⟩
  have hplaying : AlarmSounds.isPlaying (Dispatch.playAlarm env st).state.engine = true := by
    rw [hengine]; exact isPlaying_after_playSound st.engine
  have hrest := processDeliveries_playing rest (Dispatch.playAlarm env st).state hplaying
  simp [Dispatch.processDeliveries, hrest, hcalls]

/-- Witness for C2: two identical deliveries from an idle engine yield one
playSound call. -/
theorem playAlarm_exactly_once_witness :
    (∀ e ∈ [Dispatch.Env.mk "true" true true, Dispatch.Env.mk "true" true true],
      e.triggerAlarm = "true" ∧ e.fetchOk = true ∧ e.openable = true) ∧
    (Dispatch.processDeliveries
      [Dispatch.Env.mk "true" true true, Dispatch.Env.mk "true" true true]
      { cache := none
        storage := { baseURL := some "http://a", selectedSound := some "tone" }
        engine := AlarmSounds.initState }).2 = 1 :=
  ⟨by decide,
   (playAlarm_exactly_once (Dispatch.Env.mk "true" true true)
      [Dispatch.Env.mk "true" true true]
      { cache := none
        storage := { baseURL := some "http://a", selectedSound := some "tone" }
        engine := AlarmSounds.initState }
      "tone" (by decide) (by decide) (by decide)).1⟩

/-- C5 counterexample: an invocation after the module-level cache was
filled proceeds through the whole handler (it even starts the alarm) while
reading only selectedSound from storage, never re-reading the server
address. -/
theorem playAlarm_second_invocation_skips_baseURL_read :
    "baseURL" ∉ (Dispatch.playAlarm { triggerAlarm := "true", fetchOk := true, openable := true }
        (Dispatch.playAlarm { triggerAlarm := "true", fetchOk := false, openable := true }
          { cache := none
            storage := { baseURL := some "http://a", selectedSound := some "tone" }
            engine := AlarmSounds.initState }).state).effects.reads ∧
    (Dispatch.playAlarm { triggerAlarm := "true", fetchOk := true, openable := true }
        (Dispatch.playAlarm { triggerAlarm := "true", fetchOk := false, openable := true }
          { cache := none
            storage := { baseURL := some "http://a", selectedSound := some "tone" }
            engine := AlarmSounds.initState }).state).effects.playCalls = ["tone"] := by
  refine ⟨?_, rfl⟩
  decide

/-- C5 amended: selectedSound is re-read from storage on every invocation
that passes the trigger guard and whose alarm POST resolves, but the server
address is read from storage only when the module-level cache is still
empty, and the cached value is what later invocations use. -/
theorem playAlarm_storage_reads (env : Dispatch.Env) (st : Dispatch.AppState) :
    ("baseURL" ∈ (Dispatch.playAlarm env st).effects.reads ↔
      (Dispatch.triggerGuard env st = true ∧ st.cache = none)) ∧
    ("selectedSound" ∈ (Dispatch.playAlarm env st).effects.reads ↔
      (Dispatch.triggerGuard env st = true ∧ env.fetchOk = true)) ∧
    ((Dispatch.playAlarm env st).state.cache =
      if Dispatch.triggerGuard env st && st.cache.isNone then st.storage.baseURL
      else st.cache) := by
  by_cases hg : Dispatch.triggerGuard env st = true
  · cases hf : env.fetchOk with
    | false =>
        cases hc : st.cache with
        | none =>
            cases hs : st.storage.selectedSound <;>
              simp [Dispatch.playAlarm, hg, hf, hc, hs]
        | some v =>
            cases hs : st.storage.selectedSound <;>
              simp [Dispatch.playAlarm, hg, hf, hc, hs]
    | true =>
        cases hc : st.cache with
        | none =>
            cases hs : st.storage.selectedSound <;>
              simp [Dispatch.playAlarm, hg, hf, hc, hs]
        | some v =>
            cases hs : st.storage.selectedSound <;>
              simp [Dispatch.playAlarm, hg, hf, hc, hs]
  · have hg' : Dispatch.triggerGuard env st = false := by
      simpa using hg
    simp [Dispatch.playAlarm, hg', hg]

/-- C4: at the failing input (trigger true, engine idle, sound selected,
alarm POST rejected) the rejection escapes playAlarm unswallowed and
unlogged, the native playSound is never invoked and the engine stays
idle: the code does not degrade the failure the way the spec requires. -/
theorem playAlarm_fetch_failure_blocks_alarm :
    (Dispatch.playAlarm { triggerAlarm := "true", fetchOk := false, openable := true }
      { cache := none
        storage := { baseURL := some "http://a", selectedSound := some "tone" }
        engine := AlarmSounds.initState }).result = .error "fetch rejected" ∧
    (Dispatch.playAlarm { triggerAlarm := "true", fetchOk := false, openable := true }
      { cache := none
        storage := { baseURL := some "http://a", selectedSound := some "tone" }
        engine := AlarmSounds.initState }).effects.playCalls = [] ∧
    AlarmSounds.isPlaying
      (Dispatch.playAlarm { triggerAlarm := "true", fetchOk := false, openable := true }
        { cache := none
          storage := { baseURL := some "http://a", selectedSound := some "tone" }
          engine := AlarmSounds.initState }).state.engine = false := by
  refine ⟨rfl, rfl, rfl⟩

end VpilotAlert

namespace VpilotAlert

/-! ## App.tsx / screens AlarmSounds: preview playSound and its auto-stop

The screen's playSound stops the current react-native-sound object (when
one is referenced), creates a new one, and in the load callback starts it
and schedules `setTimeout(..., 5000)` whose callback stops and releases the
captured sound and sets the current-sound reference to null. No code ever
clears a scheduled timeout. Modelled as a discrete-event system whose
events are preview taps and timer firings. -/

namespace Preview

/-- One react-native-sound object created by the screen: its id, whether it
is currently producing audio, and how many times release() was called on
it. -/
structure SoundObj where
  id : Nat
  playing : Bool
  releases : Nat
  deriving DecidableEq, Repr

/-- A pending setTimeout: when it fires and which sound its callback
captured. -/
structure Timer where
  fireAt : Nat
  soundId : Nat
  deriving DecidableEq, Repr

/-- Screen state: the currentSound React reference, every sound object
created, the pending timeouts, and a fresh-id counter. -/
structure PreviewState where
  currentSound : Option Nat
  sounds : List SoundObj
  timers : List Timer
  nextId : Nat
  deriving DecidableEq, Repr

/-- State when the screen mounts. -/
def initPreview : PreviewState :=
  { currentSound := none, sounds := [], timers := [], nextId := 0 }

/-- sound.stop with a release() callback on sound i. -/
def stopAndRelease (i : Nat) (s : PreviewState) : PreviewState :=
  { s with sounds := s.sounds.map fun o =>
      if o.id = i then { o with playing := false, releases := o.releases + 1 } else o }

/-- playSound of the screen (App.tsx lines 111-139): stop-and-release the
referenced current sound (the reference itself is left in place); construct
the new Sound; on load success the callback stores it in currentSound,
plays it, and appends a 5000ms auto-stop timeout; on load failure it only
logs and returns. Nothing cancels any existing timeout. -/
def previewStep (t : Nat) (loadOk : Bool) (s : PreviewState) : PreviewState :=
  let s1 := match s.currentSound with
    | some i => stopAndRelease i s
    | none => s
  if loadOk then
    { s1 with
      sounds := s1.sounds ++ [{ id := s1.nextId, playing := true, releases := 0 }]
      currentSound := some s1.nextId
      timers := s1.timers ++ [{ fireAt := t + 5000, soundId := s1.nextId }]
      nextId := s1.nextId + 1 }
  else
    { s1 with nextId := s1.nextId + 1 }

/-- The setTimeout callback (App.tsx lines 132-137): stop and release the
captured sound and set currentSound to null, unconditionally. -/
def timerFireStep (tm : Timer) (s : PreviewState) : PreviewState :=
  { stopAndRelease tm.soundId s with
      currentSound := none
      timers := s.timers.erase tm }

/-- Events the runtime can deliver to the screen. -/
inductive Ev where
  | preview (time : Nat) (loadOk : Bool)
  | fire (fireAt : Nat) (soundId : Nat)
  deriving DecidableEq, Repr

/-- A timeout callback runs only while it is still pending. -/
def stepEv (s : PreviewState) : Ev → PreviewState
  | .preview t ok => previewStep t ok s
  | .fire t i =>
      if { fireAt := t, soundId := i : Timer } ∈ s.timers then
        timerFireStep { fireAt := t, soundId := i } s
      else s

/-- Run a list of events from the mounted screen. -/
def runPreview (evs : List Ev) : PreviewState :=
  evs.foldl stepEv initPreview

/-- Look a created sound up by id. -/
def soundById (s : PreviewState) (i : Nat) : Option SoundObj :=
  s.sounds.find? fun o => o.id == i

end Preview

/-- C8: at the failing trace — preview of sound 0 at t=0, superseding
preview of sound 1 at t=3000 (which explicitly stops and releases sound 0
before the 5-second bound), then sound 0's auto-stop timer firing at
t=5000 — the explicit stop did not cancel the scheduled auto-stop: the
timer is still pending after the stop, it fires against a sound that is no
longer current, releases it a second time, and resets the currentSound
reference to null while sound 1 is still playing. -/
theorem preview_stale_timer_fires :
    (Preview.Timer.mk 5000 0 ∈
      (Preview.runPreview [.preview 0 true, .preview 3000 true]).timers) ∧
    (Preview.runPreview [.preview 0 true, .preview 3000 true]).currentSound = some 1 ∧
    Preview.soundById (Preview.runPreview [.preview 0 true, .preview 3000 true]) 0 =
      some { id := 0, playing := false, releases := 1 } ∧
    (Preview.runPreview [.preview 0 true, .preview 3000 true, .fire 5000 0]).currentSound
      = none ∧
    Preview.soundById
      (Preview.runPreview [.preview 0 true, .preview 3000 true, .fire 5000 0]) 1 =
      some { id := 1, playing := true, releases := 0 } ∧
    Preview.soundById
      (Preview.runPreview [.preview 0 true, .preview 3000 true, .fire 5000 0]) 0 =
      some { id := 0, playing := false, releases := 2 } := by
  decide

end VpilotAlert
